import Mathlib

/-!
Verification of the natural-language specification of the n8nProj business
scraper against a shallow embedding of its Python sources
(`main.py`, `contact_server.py`).

Python strings are modelled as `List Char` (one entry per code point, which
matches Python `len`, slicing and iteration).  Machine-level concerns do not
arise: all arithmetic in the embedded code is small non-negative integer
arithmetic, modelled by `Nat`.  Character classes (`\\s`, `\\w`, `[A-Z]` under
`re.I`, `str.lower`) are modelled at ASCII fidelity, which is the alphabet the
program's keyword tables, regexes and thresholds are written for.

Network fetches (`requests.Session.get` + BeautifulSoup parsing) are
modelled by an explicit oracle `fetch : Str → Option Page`: `none` is a
raised request exception, `some page` is a successfully fetched document,
already reduced to the two views the code reads from BeautifulSoup —
`soup.get_text()` and `soup.find_all('a', href=True)`.
-/

namespace N8n

/-- A Python string: one list entry per code point. -/
abbrev Str := List Char

/-- Python `\s` (ASCII): space, tab, newline, carriage return, vertical tab,
form feed. -/
def isPySpace (c : Char) : Bool :=
  c = ' ' || c = '\t' || c = '\n' || c = '\r' || c = '\x0b' || c = '\x0c'

/-- Python `\w` (ASCII): letters, digits, underscore. -/
def isWordChar (c : Char) : Bool :=
  c.isAlphanum || c = '_'

/-- Python `str.lower()` (ASCII letters). -/
def pyLower (s : Str) : Str := s.map Char.toLower

/-- Python `str.strip()`: remove leading and trailing whitespace. -/
def pyStrip (s : Str) : Str :=
  ((s.dropWhile isPySpace).reverse.dropWhile isPySpace).reverse

/-- Python `str.rstrip('/')`: remove trailing slashes. -/
def rstripSlash (s : Str) : Str :=
  (s.reverse.dropWhile (fun c => c = '/')).reverse

/-- Longest common subsequence recursion, structurally recursive on a fuel
argument so that it reduces in the kernel; every recursive call shrinks the
combined length by at least one, so any fuel at least `s1.length + s2.length`
never reaches the fuel-exhausted branch. -/
def lcsLenFuel : Nat → Str → Str → Nat
  | 0, _, _ => 0
  | _ + 1, [], _ => 0
  | _ + 1, _ :: _, [] => 0
  | fuel + 1, x :: xs, y :: ys =>
    if x = y then lcsLenFuel fuel xs ys + 1
    else max (lcsLenFuel fuel (x :: xs) ys) (lcsLenFuel fuel xs (y :: ys))

/-- Longest common subsequence length of two character lists.  `fuzz.ratio`
(python-Levenshtein backend, as used by `fuzzywuzzy`) is computed from the
indel edit distance, which equals `s1.length + s2.length - 2 * lcsLen s1 s2`. -/
def lcsLen (s1 s2 : Str) : Nat :=
  lcsLenFuel (s1.length + s2.length) s1 s2

/-- Round-half-to-even of the fraction `num / den` (Python `round` as applied
by `fuzzywuzzy.utils.intr`). -/
def roundHalfEven (num den : Nat) : Nat :=
  let q := num / den
  let r := num % den
  if 2 * r < den then q
  else if 2 * r > den then q + 1
  else if q % 2 = 0 then q else q + 1

/-- `fuzz.ratio(s1, s2)`: the integer `round(100 * (lensum - dist) / lensum)`
where `dist` is the indel edit distance, i.e. `round(200 * lcs / lensum)`;
`100` when both strings are empty. -/
def fuzzRatio (s1 s2 : Str) : Nat :=
  let lensum := s1.length + s2.length
  if lensum = 0 then 100
  else roundHalfEven (200 * lcsLen s1 s2) lensum

/-- `AdvancedDataExtractor.is_similar_text(text1, text2, threshold)` in
`main.py`: `fuzz.ratio(text1, text2) > threshold * 100`.  The callers pass
`threshold` 0.8 or 0.85; `thresholdPct` is that value times 100.  Since
`fuzz.ratio` is an integer, `ratio > 80.0` is exactly `ratio > 80`. -/
def is_similar_text (text1 text2 : Str) (thresholdPct : Nat) : Bool :=
  fuzzRatio text1 text2 > thresholdPct

/-- `AdvancedDataExtractor.address_keywords` (`main.py`). -/
def addressKeywords : List Str :=
  (["street", "road", "block", "phase", "sector", "avenue", "colony",
    "extension", "market", "plaza", "building", "area", "town", "plot",
    "lane", "blvd", "boulevard", "main", "mall", "center", "square",
    "park", "garden", "society", "scheme", "housing", "commercial"]).map
    String.toList

/-- `AdvancedDataExtractor.category_keywords` (`main.py`). -/
def categoryKeywords : List Str :=
  (["agency", "service", "company", "store", "shop", "center", "rental",
    "tour", "office", "business", "enterprise", "corporation", "firm",
    "services", "solutions", "group", "associates", "consultancy"]).map
    String.toList

/-- Does `p` hold at some suffix of the string?  Models `re.search`, which
tries every start position (including the end of the string). -/
def anySuffix (p : Str → Bool) : Str → Bool
  | [] => p []
  | c :: cs => p (c :: cs) || anySuffix p cs

/-- Python `needle in hay` on strings: `needle` occurs contiguously in
`hay`. -/
def isSubstring (needle hay : Str) : Bool :=
  anySuffix (fun l => needle.isPrefixOf l) hay

/-- First alternative of the `has_address_patterns` regex,
`[A-Z]\d+[A-Z]*[\+\-]?\d*[A-Z]*` under `re.I`: everything after the first
digit is optional, so a match starts here iff a letter is immediately
followed by a digit. -/
def addrAltLetterDigit : Str → Bool
  | c :: d :: _ => c.isAlpha && d.isDigit
  | _ => false

/-- Second alternative, `#\s*\w+`: a hash, optional whitespace, a word
character. -/
def addrAltHash : Str → Bool
  | '#' :: rest =>
    match rest.dropWhile isPySpace with
    | w :: _ => isWordChar w
    | [] => false
  | _ => false

/-- Tail `\s*[,-]` of the third alternative (its trailing `\s*` matches the
empty string and is irrelevant to `re.search` existence). -/
def wsThenComma (l : Str) : Bool :=
  match l.dropWhile isPySpace with
  | c :: _ => c = ',' || c = '-'
  | [] => false

/-- Tail `[A-Z]?\s*[,-]` of the third alternative (`[A-Z]` under `re.I` is
any letter). -/
def optLetterComma (l : Str) : Bool :=
  wsThenComma l ||
    (match l with
     | c :: cs => c.isAlpha && wsThenComma cs
     | [] => false)

/-- Remainder `\d*[A-Z]?\s*[,-]` of the third alternative after its first
digit, with full backtracking over how many digits `\d+` consumes. -/
def addrAltDigitsRest : Str → Bool
  | [] => false
  | c :: cs => optLetterComma (c :: cs) || (c.isDigit && addrAltDigitsRest cs)

/-- Third alternative, `\d+[A-Z]?\s*[,-]\s*`. -/
def addrAltDigitComma : Str → Bool
  | c :: cs => c.isDigit && addrAltDigitsRest cs
  | [] => false

/-- Fourth alternative, `plot\s*\d+` under `re.I`. -/
def addrAltPlot (l : Str) : Bool :=
  pyLower (l.take 4) = ("plot").toList &&
    (match (l.drop 4).dropWhile isPySpace with
     | c :: _ => c.isDigit
     | [] => false)

/-- Fifth alternative, `block\s*[A-Z]` under `re.I`. -/
def addrAltBlock (l : Str) : Bool :=
  pyLower (l.take 5) = ("block").toList &&
    (match (l.drop 5).dropWhile isPySpace with
     | c :: _ => c.isAlpha
     | [] => false)

/-- `re.search(r'[A-Z]\d+[A-Z]*[\+\-]?\d*[A-Z]*|#\s*\w+|\d+[A-Z]?\s*[,-]\s*|plot\s*\d+|block\s*[A-Z]', line, re.I)`
from `classify_text_line` (`main.py`), as a Boolean. -/
def hasAddressPatterns (line : Str) : Bool :=
  anySuffix
    (fun l =>
      addrAltLetterDigit l || addrAltHash l || addrAltDigitComma l ||
        addrAltPlot l || addrAltBlock l)
    line

/-- `\s+` followed by the literal `kw`: at least one whitespace character,
then (after skipping the rest of the run) the keyword. -/
def wsPlusThenLit (kw : Str) (l : Str) : Bool :=
  match l with
  | c :: cs => isPySpace c && kw.isPrefixOf (cs.dropWhile isPySpace)
  | [] => false

/-- `re.search(r'(car\s+rental|rental\s+car|agency|service|company|tour)', line_lower)`
from `classify_text_line` (`main.py`). -/
def hasCategoryPatterns (lineLower : Str) : Bool :=
  anySuffix
    (fun l =>
      (("car").toList.isPrefixOf l && wsPlusThenLit ("rental").toList (l.drop 3)) ||
      (("rental").toList.isPrefixOf l && wsPlusThenLit ("car").toList (l.drop 6)) ||
      ("agency").toList.isPrefixOf l || ("service").toList.isPrefixOf l ||
      ("company").toList.isPrefixOf l || ("tour").toList.isPrefixOf l)
    lineLower

/-- Final alternation `(?:stars?|\(?\d+\)?)` of the rating regex: the prefix
`star` (the trailing `s?` and the closing `\)?` are optional and nothing
follows them), or an optional `(` followed by a digit. -/
def ratingAlt (l : Str) : Bool :=
  ("star").toList.isPrefixOf l ||
    (match l with
     | '(' :: c :: _ => c.isDigit
     | c :: _ => c.isDigit
     | [] => false)

/-- `\s*(?:stars?|\(?\d+\)?)`, with backtracking over the whitespace run. -/
def ratingWsAlt : Str → Bool
  | [] => ratingAlt []
  | c :: cs => ratingAlt (c :: cs) || (isPySpace c && ratingWsAlt cs)

/-- `\d*\s*(?:stars?|\(?\d+\)?)`. -/
def ratingDigits2 : Str → Bool
  | [] => ratingWsAlt []
  | c :: cs => ratingWsAlt (c :: cs) || (c.isDigit && ratingDigits2 cs)

/-- `\.?\d*\s*(?:stars?|\(?\d+\)?)`. -/
def ratingDot (l : Str) : Bool :=
  ratingDigits2 l ||
    (match l with
     | '.' :: cs => ratingDigits2 cs
     | _ => false)

/-- `\d*\.?\d*\s*(?:stars?|\(?\d+\)?)`: the remainder of the rating pattern
after its first digit (`\d+` = `\d\d*`). -/
def ratingRest : Str → Bool
  | [] => ratingDot []
  | c :: cs => ratingDot (c :: cs) || (c.isDigit && ratingRest cs)

/-- The rating pattern anchored at the current position. -/
def ratingAt : Str → Bool
  | c :: cs => c.isDigit && ratingRest cs
  | [] => false

/-- `re.search(r'\d+\.?\d*\s*(?:stars?|\(?\d+\)?)', line)` from
`classify_text_line` (`main.py`); this search runs on the original,
un-lowercased line, with no `re.I` flag. -/
def hasRatingPattern (line : Str) : Bool :=
  anySuffix ratingAt line

/-- `AdvancedDataExtractor.classify_text_line(line, business_name)`
(`main.py` 69-99).  Scores and the category-phrase search use the lowered,
stripped line; the address-pattern and rating searches and the length tests
use the original line. -/
def classify_text_line (line business_name : Str) : Str :=
  let line_lower := pyStrip (pyLower line)
  let business_name_lower := pyStrip (pyLower business_name)
  if is_similar_text line_lower business_name_lower 80 then ("duplicate").toList
  else if hasRatingPattern line then ("rating_review").toList
  else
    let address_score := addressKeywords.countP (fun k => isSubstring k line_lower)
    let category_score := categoryKeywords.countP (fun k => isSubstring k line_lower)
    let has_address_patterns := hasAddressPatterns line
    let has_category_patterns := hasCategoryPatterns line_lower
    if decide (address_score > category_score) &&
        (has_address_patterns || decide (line.length > 15)) then
      ("address").toList
    else if decide (category_score > 0) || has_category_patterns then
      ("category").toList
    else if has_address_patterns && decide (line.length > 10) then
      ("address").toList
    else ("other").toList

/-- The four alternatives of
`re.sub(r'^(car rental agency|agency|service|company)\s*[·•]\s*', '', ..., flags=re.I)`
(`main.py`, `clean_address` and `clean_category`), in source order. -/
def categoryBoilerplate : List Str :=
  (["car rental agency", "agency", "service", "company"]).map String.toList

/-- The `re.sub` above: since the pattern is anchored at `^`, at most one
replacement happens, and it removes a leading alternative followed by
optional whitespace, one of `·`/`•`, and optional whitespace.  Alternatives
are tried left to right; the whitespace runs are maximal because neither
`·` nor `•` is whitespace. -/
def stripCategoryBoilerplate (address : Str) : Str :=
  match categoryBoilerplate.findSome? (fun p =>
    if p.isPrefixOf (pyLower address) then
      match (address.drop p.length).dropWhile isPySpace with
      | c :: cs =>
        if c = '·' || c = '•' then some (cs.dropWhile isPySpace) else none
      | [] => none
    else none) with
  | some rest => rest
  | none => address

/-- `re.sub(r'\s+', ' ', address)`: collapse every whitespace run to a
single space. -/
def collapseWs : Str → Str
  | [] => []
  | c :: cs =>
    if isPySpace c then ' ' :: collapseWs (cs.dropWhile isPySpace)
    else c :: collapseWs cs
termination_by l => l.length
decreasing_by
  all_goals simp only [List.length_cons]
  · have := (List.dropWhile_sublist (l := cs) isPySpace).length_le
    omega
  · omega

/-- `AdvancedDataExtractor.clean_address(address, business_name)`
(`main.py` 133-148).  `if not address or len(address) < 5` collapses to the
single length test because the empty string has length 0. -/
def clean_address (address business_name : Str) : Str :=
  if address.length < 5 then []
  else if is_similar_text (pyLower address) (pyLower business_name) 80 then []
  else
    let a1 := stripCategoryBoilerplate address
    let a2 := pyStrip (collapseWs a1)
    if a2.length > 10 then a2.take 200 else []

/-- The business dictionary built by `advanced_extract_single_business`
(`main.py`) restricted to the fields the verified operations read or write;
the remaining provenance fields (`rating`, `review_count`, `category`,
`search_term`, `area`, `coordinates`, `scraped_date`) never influence them
and are omitted. -/
structure Business where
  name : Str := []
  address : Str := []
  phone : Str := []
  website : Str := []
  email : Str := []
  facebook : Str := []
  instagram : Str := []
  twitter : Str := []
  linkedin : Str := []
  youtube : Str := []
  whatsapp : Str := []
deriving DecidableEq

/-- `GoogleMapsScraper.is_valid_business(business)` (`main.py` 1172-1176):
truthy name, name longer than 2, and a truthy address or phone. -/
def is_valid_business (b : Business) : Bool :=
  !b.name.isEmpty && decide (b.name.length > 2) &&
    (!b.address.isEmpty || !b.phone.isEmpty)

/-- The loop body state of `GoogleMapsScraper.deduplicate_businesses`
(`main.py` 1178-1204): `seen` is the set of accepted normalized names
(modelled as a list; both tests below are existential, so the set/list
distinction and iteration order are irrelevant). -/
def dedupeAux : List Str → List Business → List Business
  | _, [] => []
  | seen, b :: rest =>
    let name_lower := pyStrip (pyLower b.name)
    if seen.contains name_lower then dedupeAux seen rest
    else if seen.any (fun existing => is_similar_text name_lower existing 85) then
      dedupeAux seen rest
    else b :: dedupeAux (name_lower :: seen) rest

/-- `GoogleMapsScraper.deduplicate_businesses(businesses)`
(`main.py` 1178-1204).  The guard `if not businesses: return businesses`
coincides with the recursion's base case. -/
def deduplicate_businesses (businesses : List Business) : List Business :=
  dedupeAux [] businesses

/-- `GoogleMapsScraper.is_duplicate_business(business, existing_businesses)`
(`main.py` 1405-1419): name similarity above 85 on lowered (not stripped)
names, or, when both phones are truthy, phone similarity above 90. -/
def is_duplicate_business (b : Business) : List Business → Bool
  | [] => false
  | existing :: rest =>
    if fuzzRatio (pyLower b.name) (pyLower existing.name) > 85 then true
    else if !b.phone.isEmpty && !existing.phone.isEmpty &&
        decide (fuzzRatio b.phone existing.phone > 90) then true
    else is_duplicate_business b rest

/-- Email local-part class `[A-Za-z0-9._%+-]`. -/
def isLocalChar (c : Char) : Bool :=
  c.isAlphanum || c = '.' || c = '_' || c = '%' || c = '+' || c = '-'

/-- Email domain class `[A-Za-z0-9.-]`. -/
def isDomainChar (c : Char) : Bool :=
  c.isAlphanum || c = '.' || c = '-'

/-- Top-level-domain class of the first email pattern, `[A-Z|a-z]`: letters
and, as written in the source, the literal `|`. -/
def isTldCharPipe (c : Char) : Bool :=
  c.isAlpha || c = '|'

def isWordOpt : Option Char → Bool
  | some c => isWordChar c
  | none => false

/-- `\b` between two (possibly absent) characters: exactly one side is a
word character. -/
def boundaryBetween (prev next : Option Char) : Bool :=
  isWordOpt prev != isWordOpt next

/-- Backtracking for the trailing `{2,}\b` of the first email pattern: try
top-level-domain lengths `t, t-1, …, 2` (greedy large-to-small) until `\b`
holds after the consumed characters.  `afterDot` is the text after the
domain's final dot. -/
def tldBoundSearch (afterDot : Str) : Nat → Option Nat
  | 0 => none
  | tp + 1 =>
    if tp + 1 < 2 then none
    else if boundaryBetween afterDot[tp]? afterDot[tp + 1]? then some (tp + 1)
    else tldBoundSearch afterDot tp

/-- Backtracking for `[A-Za-z0-9.-]+\.<tld>`: try domain lengths
`d, d-1, …, 1` (greedy large-to-small); each candidate needs a literal `.`
right after the consumed domain characters, then the top-level-domain part
(at least two `tld`-class characters, with a final `\b` when `bound`).
Returns `(domain length, tld length)`. -/
def domSearch (tld : Char → Bool) (bound : Bool) (afterAt : Str) : Nat → Option (Nat × Nat)
  | 0 => none
  | dp + 1 =>
    if afterAt[dp + 1]? = some '.' then
      let afterDot := afterAt.drop (dp + 2)
      let run := afterDot.takeWhile tld
      if bound then
        match tldBoundSearch afterDot run.length with
        | some t => some (dp + 1, t)
        | none => domSearch tld bound afterAt dp
      else if run.length ≥ 2 then some (dp + 1, run.length)
      else domSearch tld bound afterAt dp
    else domSearch tld bound afterAt dp

/-- One attempt of the email regex anchored at position `i` of `s`; returns
the exclusive end position of the match.  The local-part run is maximal:
a shorter `[A-Za-z0-9._%+-]+` cannot help, because the next character would
still be local-class and therefore not `@`. -/
def emailMatchAt (bound : Bool) (tld : Char → Bool) (s : Str) (i : Nat) :
    Option Nat :=
  let rest := s.drop i
  let localRun := rest.takeWhile isLocalChar
  if localRun.length = 0 then none
  else if bound && !boundaryBetween (if i = 0 then none else s[i - 1]?) s[i]? then
    none
  else
    let atIdx := i + localRun.length
    if s[atIdx]? = some '@' then
      let afterAt := s.drop (atIdx + 1)
      let domRun := afterAt.takeWhile isDomainChar
      match domSearch tld bound afterAt domRun.length with
      | some (d, t) => some (atIdx + 1 + d + 1 + t)
      | none => none
    else none

/-- `re.findall` for the email patterns: scan start positions left to right,
emit each leftmost match, and continue after its end (non-overlapping).
The patterns contain no groups, so `findall` yields whole matches.  The fuel
starts at `s.length + 1`; the position strictly increases each step, so it
never runs out. -/
def findallAux (bound : Bool) (tld : Char → Bool) (s : Str) :
    Nat → Nat → List Str
  | _, 0 => []
  | i, fuel + 1 =>
    if i ≥ s.length then []
    else
      match emailMatchAt bound tld s i with
      | some j => (s.drop i).take (j - i) :: findallAux bound tld s j fuel
      | none => findallAux bound tld s (i + 1) fuel

def findallEmail (bound : Bool) (tld : Char → Bool) (s : Str) : List Str :=
  findallAux bound tld s 0 (s.length + 1)

/-- The `invalid_domains` denylist local to
`ContactDetailsExtractor.extract_emails` (`contact_server.py`). -/
def emailInvalidDomains : List Str :=
  (["example.com", "test.com", "google.com", "gmail.com",
    "yahoo.com", "hotmail.com", "outlook.com", "live.com",
    "domain.com", "sample.com", "demo.com", "placeholder.com"]).map
    String.toList

/-- `email_lower.split('@')[-1]`: the part after the last `@`. -/
def afterLastAt (l : Str) : Str :=
  (l.reverse.takeWhile (fun c => c != '@')).reverse

/-- The case-insensitive first-seen deduplication loop of `extract_emails`. -/
def emailDedupAux (seen : List Str) : List Str → List Str
  | [] => []
  | e :: rest =>
    let el := pyLower e
    if seen.contains el then emailDedupAux seen rest
    else e :: emailDedupAux (el :: seen) rest

/-- The acceptance condition of the final filtering loop of
`extract_emails` (`contact_server.py` 122-135), conjuncts in source order. -/
def emailKeep (email : Str) : Bool :=
  let email_lower := pyLower email
  let domain := if email_lower.contains '@' then afterLastAt email_lower else []
  !((["@example.com", "@test.com", "@google.com"]).map String.toList).any
      (fun d => isSubstring d email_lower) &&
    email.contains '@' && decide (email.length > 5) &&
    !emailInvalidDomains.contains domain &&
    !(("admin@").toList.isPrefixOf email_lower) &&
    !(("test@").toList.isPrefixOf email_lower) &&
    !(("info@example").toList.isPrefixOf email_lower) &&
    !(("contact@example").toList.isPrefixOf email_lower)

/-- `ContactDetailsExtractor.extract_emails(text)` (`contact_server.py`
90-137).  The four regex patterns are pairwise duplicated: patterns 1 and 2
are the word-boundary variant (whose TLD class `[A-Z|a-z]` admits `|`),
patterns 3 and 4 the unanchored variant; their finds are concatenated in
pattern order, deduplicated case-insensitively keeping first occurrences,
then filtered. -/
def extract_emails (text : Str) : List Str :=
  let p12 := findallEmail true isTldCharPipe text
  let p34 := findallEmail false (fun c => c.isAlpha) text
  let emails := p12 ++ p12 ++ p34 ++ p34
  (emailDedupAux [] emails).filter emailKeep

/-- Splits `scheme://rest`, when the url has that shape (the callers only
pass urls beginning with `http`, whose scheme characters are valid, so the
scheme-validity check of `urllib.parse.urlparse` is not modelled). -/
def splitSchemeRest (url : Str) : Option (Str × Str) :=
  let scheme := url.takeWhile (fun c => c != ':')
  if decide (scheme.length < url.length) &&
      ("://").toList.isPrefixOf (url.drop scheme.length) then
    some (scheme, url.drop (scheme.length + 3))
  else none

/-- `urlparse(url).netloc`: the authority between `://` and the next
`/`, `?` or `#`; empty when the url has no `//` after its scheme. -/
def netlocOf (url : Str) : Str :=
  match splitSchemeRest url with
  | some (_, rest) => rest.takeWhile (fun c => c != '/' && c != '?' && c != '#')
  | none => []

/-- `ContactDetailsExtractor.invalid_domains` (`contact_server.py` 43-47). -/
def urlInvalidDomains : List Str :=
  (["google.com", "maps.google.com", "facebook.com", "instagram.com",
    "twitter.com", "linkedin.com", "youtube.com", "example.com",
    "test.com", "localhost", "127.0.0.1"]).map String.toList

/-- `ContactDetailsExtractor.is_valid_url(url)` (`contact_server.py`
78-88).  The `except: return False` branch guards `urlparse`, which does
not raise on any text input, so it is not modelled. -/
def is_valid_url (url : Str) : Bool :=
  if url.isEmpty || !(("http").toList.isPrefixOf url) then false
  else
    let domain := pyLower (netlocOf url)
    !(urlInvalidDomains.any fun inv => isSubstring inv domain)

def dropPrefix? (pre l : Str) : Option Str :=
  if pre.isPrefixOf l then some (l.drop pre.length) else none

/-- The shared head `https?://(www\.)?(facebook|instagram|twitter|linkedin|youtube)\.com`
of every `generic_patterns` regex in `is_valid_social_url`
(`contact_server.py` 191-282); returns the remaining path when the head
matches at the start of the url (`re.match`).  Each optional pieceheads to a
distinct next literal, so matching is deterministic (no backtracking). -/
def genericRemainder (url : Str) : Option Str :=
  match dropPrefix? ("http").toList url with
  | none => none
  | some r1 =>
    let r2 := match r1 with
      | 's' :: t => t
      | _ => r1
    match dropPrefix? ("://").toList r2 with
    | none => none
    | some r3 =>
      let r4 := match dropPrefix? ("www.").toList r3 with
        | some t => t
        | none => r3
      match ((["facebook", "instagram", "twitter", "linkedin", "youtube"]).map
          String.toList).findSome? (fun p => dropPrefix? p r4) with
      | none => none
      | some r5 => dropPrefix? (".com").toList r5

/-- The path parts of the `generic_patterns` list, in source order
(duplicates kept); each entry is matched as a prefix of the remainder,
because `re.match` only anchors at the start. -/
def genericPathLiterals : List Str :=
  (["/share/", "/profile.php?id=", "/pages/", "/groups/", "/events/",
    "/help/", "/about/", "/privacy/", "/terms/", "/contact/", "/support/",
    "/login", "/signup", "/forgot-password", "/security", "/settings",
    "/ads/", "/business/", "/developers/", "/careers/", "/press/",
    "/investors/", "/legal/", "/cookies/", "/accessibility/", "/community/",
    "/developers/", "/partners/", "/creators/", "/gaming/", "/watch/",
    "/videos/", "/live/", "/trending/", "/subscriptions/", "/playlist/",
    "/channel/", "/user/", "/c/", "/@", "/u/", "/i/", "/t/", "/s/", "/o/",
    "/p/", "/m/", "/w/", "/x/", "/y/", "/z/",
    "/0/", "/1/", "/2/", "/3/", "/4/", "/5/", "/6/", "/7/", "/8/", "/9/",
    "/a/", "/b/", "/c/", "/d/", "/e/", "/f/", "/g/", "/h/", "/i/", "/j/",
    "/k/", "/l/", "/m/", "/n/", "/o/", "/p/", "/q/", "/r/", "/s/", "/t/",
    "/u/", "/v/", "/w/", "/x/", "/y/", "/z/"]).map String.toList

/-- `any(re.match(pattern, url) for pattern in generic_patterns)`: the three
bare-domain patterns (`/?$`, `/$`, `/[\s]*$`) plus the literal path
prefixes. -/
def matchesGenericPattern (url : Str) : Bool :=
  match genericRemainder url with
  | none => false
  | some r =>
    r.isEmpty || r == ['/'] ||
      (match r with
       | '/' :: rest => rest.all isPySpace
       | _ => false) ||
      genericPathLiterals.any (fun p => p.isPrefixOf r)

/-- `business_indicators` of `is_valid_social_url`
(`contact_server.py` 293-297). -/
def businessIndicators : List Str :=
  (["company", "business", "official", "page", "profile",
    "rent", "car", "tours", "travel", "service", "agency",
    "rental", "transport", "cab", "taxi", "drive", "auto"]).map
    String.toList

/-- `ContactDetailsExtractor.is_valid_social_url(url, platform)`
(`contact_server.py` 185-306).  The `platform` argument is never read by
the body. -/
def is_valid_social_url (url : Str) (platform : Str) : Bool :=
  if url.isEmpty || !(("http").toList.isPrefixOf url) then false
  else if matchesGenericPattern url then false
  else if url.length < 30 then false
  else
    let url_lower := pyLower url
    let has_business_indicator :=
      businessIndicators.any (fun ind => isSubstring ind url_lower)
    if decide (url.length < 40) && !has_business_indicator then false
    else true

/-- `scheme://netloc` of a url, the prefix `urljoin` keeps when resolving a
root-relative reference. -/
def schemeNetloc (url : Str) : Str :=
  match splitSchemeRest url with
  | some (scheme, rest) =>
    scheme ++ ("://").toList ++
      rest.takeWhile (fun c => c != '/' && c != '?' && c != '#')
  | none => []

/-- `ContactDetailsExtractor.clean_social_url(url, base_url)`
(`contact_server.py` 308-321).  The `urljoin(base_url, url)` call only ever
receives a `url` starting with a single `/` (the `//` case is handled by the
previous branch), for which `urljoin` returns the base's `scheme://netloc`
followed by `url`; only that shape is modelled. -/
def clean_social_url (url base_url : Str) : Str :=
  if url.isEmpty then []
  else
    let u :=
      if ("//").toList.isPrefixOf url then ("https:").toList ++ url
      else if ("/").toList.isPrefixOf url then schemeNetloc base_url ++ url
      else if !(("http").toList.isPrefixOf url) then ("https://").toList ++ url
      else url
    pyStrip u

/-- One `<a href=…>` element as the code reads it from BeautifulSoup:
`link.get('href', '')` (raw) and `link.get_text()`. -/
structure Link where
  href : Str
  text : Str
deriving DecidableEq

/-- A fetched, parsed document, reduced to the two views the code reads:
`soup.get_text()` and `soup.find_all('a', href=True)`. -/
structure Page where
  text : Str
  links : List Link
deriving DecidableEq

/-- The `social_data` dictionary of `extract_social_media`
(`contact_server.py` 141-144), all fields initially empty. -/
structure SocialData where
  facebook : Str := []
  instagram : Str := []
  twitter : Str := []
  linkedin : Str := []
  youtube : Str := []
  whatsapp : Str := []
deriving DecidableEq

def emptySocial : SocialData := {}

/-- The loop body of `ContactDetailsExtractor.extract_social_media`
(`contact_server.py` 149-181): the platforms are tried in a fixed
`elif` chain; a link whose href contains a platform token is consumed by
that branch even when validation then rejects it.  `href` is
`link.get('href', '').lower()`; the lowered anchor text is computed by the
source but never used. -/
def extractSocialStep (base_url : Str) (sd : SocialData) (link : Link) :
    SocialData :=
  let href := pyLower link.href
  if (isSubstring ("facebook.com").toList href ||
      isSubstring ("fb.com").toList href) && sd.facebook.isEmpty then
    if is_valid_social_url href ("facebook").toList then
      { sd with facebook := clean_social_url href base_url }
    else sd
  else if (isSubstring ("instagram.com").toList href ||
      isSubstring ("ig.com").toList href) && sd.instagram.isEmpty then
    if is_valid_social_url href ("instagram").toList then
      { sd with instagram := clean_social_url href base_url }
    else sd
  else if (isSubstring ("twitter.com").toList href ||
      isSubstring ("x.com").toList href) && sd.twitter.isEmpty then
    if is_valid_social_url href ("twitter").toList then
      { sd with twitter := clean_social_url href base_url }
    else sd
  else if isSubstring ("linkedin.com").toList href && sd.linkedin.isEmpty then
    if is_valid_social_url href ("linkedin").toList then
      { sd with linkedin := clean_social_url href base_url }
    else sd
  else if (isSubstring ("youtube.com").toList href ||
      isSubstring ("youtu.be").toList href) && sd.youtube.isEmpty then
    if is_valid_social_url href ("youtube").toList then
      { sd with youtube := clean_social_url href base_url }
    else sd
  else if (isSubstring ("wa.me").toList href ||
      isSubstring ("whatsapp.com").toList href) && sd.whatsapp.isEmpty then
    if is_valid_social_url href ("whatsapp").toList then
      { sd with whatsapp := clean_social_url href base_url }
    else sd
  else sd

/-- `ContactDetailsExtractor.extract_social_media(soup, base_url)`
(`contact_server.py` 139-183). -/
def extract_social_media (links : List Link) (base_url : Str) : SocialData :=
  links.foldl (extractSocialStep base_url) emptySocial

/-- `contact_keywords` of `extract_from_contact_page`
(`contact_server.py` 376-381), duplicates kept. -/
def contactKeywords : List Str :=
  (["contact", "about", "info", "information", "reach", "connect",
    "support", "help", "team", "staff", "people", "company",
    "business", "services", "location", "address", "phone",
    "email", "social", "media", "follow", "connect"]).map String.toList

/-- `for platform, url in contact_social.items(): if url and not
social_data[platform]: …` — fill only the still-empty fields. -/
def mergeSocialFill (sd new : SocialData) : SocialData :=
  { facebook :=
      if !new.facebook.isEmpty && sd.facebook.isEmpty then new.facebook
      else sd.facebook
    instagram :=
      if !new.instagram.isEmpty && sd.instagram.isEmpty then new.instagram
      else sd.instagram
    twitter :=
      if !new.twitter.isEmpty && sd.twitter.isEmpty then new.twitter
      else sd.twitter
    linkedin :=
      if !new.linkedin.isEmpty && sd.linkedin.isEmpty then new.linkedin
      else sd.linkedin
    youtube :=
      if !new.youtube.isEmpty && sd.youtube.isEmpty then new.youtube
      else sd.youtube
    whatsapp :=
      if !new.whatsapp.isEmpty && sd.whatsapp.isEmpty then new.whatsapp
      else sd.whatsapp }

/-- `any(social_data.values())`. -/
def anySocial (sd : SocialData) : Bool :=
  !sd.facebook.isEmpty || !sd.instagram.isEmpty || !sd.twitter.isEmpty ||
    !sd.linkedin.isEmpty || !sd.youtube.isEmpty || !sd.whatsapp.isEmpty

/-- The `for contact_link in contact_links[:5]` loop of
`extract_from_contact_page` (`contact_server.py` 404-431): resolve the
link, fetch it (`none` models a raised request exception → `continue`),
merge the extracted links into the still-empty fields, and stop at the first
iteration after which any field is set. -/
def contactPageLoop (fetch : Str → Option Page) (base_url : Str) :
    List Str → SocialData → SocialData
  | [], sd => sd
  | linkHref :: rest, sd =>
    let contact_url :=
      if ("http").toList.isPrefixOf linkHref then linkHref
      else if ("/").toList.isPrefixOf linkHref then
        rstripSlash base_url ++ linkHref
      else rstripSlash base_url ++ '/' :: linkHref
    match fetch contact_url with
    | none => contactPageLoop fetch base_url rest sd
    | some contactPage =>
      let sd2 := mergeSocialFill sd (extract_social_media contactPage.links contact_url)
      if anySocial sd2 then sd2
      else contactPageLoop fetch base_url rest sd2

def contactPhrases : List Str :=
  (["contact us", "get in touch", "reach us", "call us"]).map String.toList

/-- `ContactDetailsExtractor.extract_from_contact_page(soup, base_url)`
(`contact_server.py` 368-433).  Contact links are collected from the lowered
href/text, but the raw href is what gets appended and resolved. -/
def extract_from_contact_page (fetch : Str → Option Page) (page : Page)
    (base_url : Str) : SocialData :=
  let contact_links :=
    (page.links.filter (fun link =>
      contactKeywords.any (fun k =>
        isSubstring k (pyLower link.href) || isSubstring k (pyLower link.text)))).map
      (fun link => link.href)
  let sd0 :=
    if contactPhrases.any (fun ph => isSubstring ph (pyLower page.text)) then
      mergeSocialFill emptySocial (extract_social_media page.links base_url)
    else emptySocial
  contactPageLoop fetch base_url (contact_links.take 5) sd0

/-- `ContactDetailsExtractor.extract_contact_details(business)`
(`contact_server.py` 323-366).  `fetch` is the network oracle: `none`
models `session.get`/`raise_for_status` raising (the `except` branch logs
and returns the business unchanged); `some page` is a successfully parsed
response.  On success `business.update({...})` overwrites all seven contact
fields with the freshly extracted values. -/
def extract_contact_details (fetch : Str → Option Page) (business : Business) :
    Business :=
  let website := business.website
  if website.isEmpty || !is_valid_url website then business
  else
    match fetch website with
    | none => business
    | some page =>
      let emails := extract_emails page.text
      let email := emails.headD []
      let social0 := extract_social_media page.links website
      let social :=
        if !anySocial social0 then extract_from_contact_page fetch page website
        else social0
      { business with
        email := email
        facebook := social.facebook
        instagram := social.instagram
        twitter := social.twitter
        linkedin := social.linkedin
        youtube := social.youtube
        whatsapp := social.whatsapp }

/-- One item of the `/enrich` batch: `future.result()` either yields the
enriched business or re-raises the worker's exception, in which case the
handler appends the original business (`contact_server.py` 470-477). -/
def processOne (result : Business → Except Str Business) (b : Business) :
    Business :=
  match result b with
  | Except.ok enriched => enriched
  | Except.error _ => b

/-- The parallel section of the `/enrich` handler (`contact_server.py`
447-490): one future per business, results appended in completion order.
The nondeterministic `as_completed` order is modelled by `complete`, an
arbitrary reordering of the submitted businesses (constrained to a
permutation in the theorems); `result` models each worker's outcome. -/
def enrich_businesses (complete : List Business → List Business)
    (result : Business → Except Str Business) (businesses : List Business) :
    List Business :=
  (complete businesses).map (processOne result)

/-- The non-duplicate, non-rating tail of `classify_text_line` as the spec
words it (section 4.1 "Decision order"): `address` when
`address_score > category_score` and (structural address pattern or length
over 15); else `category` when `category_score > 0` or a category phrase is
present; else `address` when a structural address pattern is present and the
length exceeds 10; else `other`.  Written from the spec's sentence, to be
compared with the source-derived `classify_text_line`. -/
def specDecisionOrder (line : Str) : Str :=
  let line_lower := pyStrip (pyLower line)
  let address_score := addressKeywords.countP (fun k => isSubstring k line_lower)
  let category_score := categoryKeywords.countP (fun k => isSubstring k line_lower)
  if decide (address_score > category_score) &&
      (hasAddressPatterns line || decide (line.length > 15)) then
    ("address").toList
  else if decide (category_score > 0) || hasCategoryPatterns line_lower then
    ("category").toList
  else if hasAddressPatterns line && decide (line.length > 10) then
    ("address").toList
  else ("other").toList

/-- The social mapping `extract_contact_details` writes into the business
after a successful fetch: the main-page links, with the contact-page
fallback when the main page yielded nothing. -/
def enrichedSocial (fetch : Str → Option Page) (page : Page) (website : Str) :
    SocialData :=
  let social0 := extract_social_media page.links website
  if !anySocial social0 then extract_from_contact_page fetch page website
  else social0

/-- A fetch oracle whose every request succeeds with a blank document: the
page parses, but every extraction over it is empty. -/
def fetchBlankPage : Str → Option Page :=
  fun _ => some { text := [], links := [] }

/-- A fully populated business record pointed at a fetchable website. -/
def c1Business : Business :=
  { name := ("Al Rehman Rentals").toList
    address := ("12-B Main Blvd, Lahore").toList
    phone := ("0300-1234567").toList
    website := ("http://alrehmanrentals.pk").toList
    email := ("old@alrehmanrentals.pk").toList
    facebook := ("https://facebook.com/alrehmanrentalspage").toList
    instagram := ("https://instagram.com/alrehmanrentalspage").toList
    twitter := ("https://twitter.com/alrehmanrentalsco").toList
    linkedin := ("https://linkedin.com/company/alrehmanrentals").toList
    youtube := ("https://youtube.com/alrehmanrentalsvideos").toList
    whatsapp := ("https://wa.me/923001234567").toList }

/-- Two businesses with unrelated names but identical phone numbers. -/
def c2First : Business :=
  { name := ("abc").toList, phone := ("0300-1234567").toList }

def c2Second : Business :=
  { name := ("xyz").toList, phone := ("0300-1234567").toList }

/-! ## Theorems -/

/-- C8: a scraped business passes `is_valid_business` iff its name is
non-empty with length greater than 2 and at least one of address or phone is
non-empty; in particular a record with a valid name but empty address and
phone is rejected. -/
theorem c8_valid_business_iff (b : Business) :
    is_valid_business b = true ↔
      b.name ≠ [] ∧ b.name.length > 2 ∧ (b.address ≠ [] ∨ b.phone ≠ []) := by
  simp [is_valid_business, List.isEmpty_iff, and_assoc]

/-- C10: `clean_address` returns either the empty string or a string whose
length is strictly greater than 10 and at most 200; cleaned addresses of 10
characters or fewer are returned as empty, never truncated or kept. -/
theorem c10_clean_address_length (address business_name : Str) :
    clean_address address business_name = [] ∨
      (10 < (clean_address address business_name).length ∧
        (clean_address address business_name).length ≤ 200) := by
  unfold clean_address
  split
  · exact Or.inl rfl
  · split
    · exact Or.inl rfl
    · by_cases h :
        (pyStrip (collapseWs (stripCategoryBoilerplate address))).length > 10
      · rw [if_pos h]
        refine Or.inr ⟨?_, ?_⟩
        · rw [List.length_take]
          omega
        · rw [List.length_take]
          omega
      · rw [if_neg h]
        exact Or.inl rfl

theorem dedupeAux_idem (l : List Business) :
    ∀ seen : List Str, dedupeAux seen (dedupeAux seen l) = dedupeAux seen l := by
  induction l with
  | nil => intro seen; rfl
  | cons b rest ih =>
    intro seen
    by_cases h1 : pyStrip (pyLower b.name) ∈ seen
    · simp [dedupeAux, h1, ih seen]
    · by_cases h2 : (seen.any fun existing =>
          is_similar_text (pyStrip (pyLower b.name)) existing 85) = true
      · simp [dedupeAux, h1, h2, ih seen]
      · simp [dedupeAux, h1, h2, ih (pyStrip (pyLower b.name) :: seen)]

/-- C6: `deduplicate_businesses` is idempotent — its output is a fixed
point. -/
theorem c6_dedupe_idempotent (businesses : List Business) :
    deduplicate_businesses (deduplicate_businesses businesses) =
      deduplicate_businesses businesses :=
  dedupeAux_idem businesses []

/-- C5: on every line classified as neither `duplicate` nor
`rating_review`, `classify_text_line` follows exactly the spec's decision
order (`specDecisionOrder`). -/
theorem c5_decision_order (line business_name : Str)
    (h1 : classify_text_line line business_name ≠ ("duplicate").toList)
    (h2 : classify_text_line line business_name ≠ ("rating_review").toList) :
    classify_text_line line business_name = specDecisionOrder line := by
  by_cases hs : is_similar_text (pyStrip (pyLower line))
      (pyStrip (pyLower business_name)) 80 = true
  · exact absurd (by simp [classify_text_line, hs]) h1
  · by_cases hr : hasRatingPattern line = true
    · exact absurd (by simp [classify_text_line, hs, hr]) h2
    · simp [classify_text_line, specDecisionOrder, hs, hr]

/-- C5 witness. -/
theorem c5_decision_order_witness :
    classify_text_line ("tour x").toList ("zzzz").toList =
      specDecisionOrder ("tour x").toList :=
  c5_decision_order ("tour x").toList ("zzzz").toList (by decide) (by decide)

/-- C7: every input business of an `/enrich` batch appears exactly once in
the output, up to the nondeterministic completion order (any permutation of
the submission order), each either enriched or — when its worker raised —
substituted by its original record; one failing item never aborts the
batch. -/
theorem c7_enrich_batch :
    (∀ (complete : List Business → List Business)
        (result : Business → Except Str Business)
        (businesses : List Business),
        (complete businesses).Perm businesses →
        (enrich_businesses complete result businesses).Perm
          (businesses.map (processOne result))) ∧
    (∀ (result : Business → Except Str Business) (b : Business) (e : Str),
        result b = Except.error e → processOne result b = b) := by
  constructor
  · intro complete result businesses h
    exact h.map (processOne result)
  · intro result b e h
    simp [processOne, h]

/-- C7 witness. -/
theorem c7_enrich_batch_witness :
    (enrich_businesses id (fun _ => Except.error ("down").toList)
        [c2First]).Perm
      ([c2First].map (processOne (fun _ => Except.error ("down").toList))) ∧
    processOne (fun _ => Except.error ("down").toList) c2First = c2First :=
  ⟨c7_enrich_batch.1 id _ [c2First] (List.Perm.refl _),
    c7_enrich_batch.2 _ c2First ("down").toList rfl⟩

/-- C4 counterexample: a line at exactly 0.8 fuzzy similarity to the
business name (`fuzz.ratio` exactly 80) is NOT classified `duplicate` — the
source comparison is strict (`> 0.8`), so the claimed boundary case fails. -/
theorem c4_counterexample :
    fuzzRatio (pyStrip (pyLower ("aaaabb").toList))
        (pyStrip (pyLower ("aaaa").toList)) = 80 ∧
      classify_text_line ("aaaabb").toList ("aaaa").toList = ("other").toList := by
  constructor
  · decide
  · decide

/-- C4 amended: whenever the fuzzy similarity of the lowered, stripped line
and business name is strictly greater than 0.8 (`fuzz.ratio > 80`),
`classify_text_line` returns `duplicate`. -/
theorem c4_amended (line business_name : Str)
    (h : fuzzRatio (pyStrip (pyLower line)) (pyStrip (pyLower business_name)) > 80) :
    classify_text_line line business_name = ("duplicate").toList := by
  simp [classify_text_line, is_similar_text, h]

/-- C4 witness. -/
theorem c4_amended_witness :
    classify_text_line ("samename").toList ("samename").toList =
      ("duplicate").toList :=
  c4_amended ("samename").toList ("samename").toList (by decide)

/-- C2 counterexample: two records with unrelated names (`fuzz.ratio` 0)
and identical non-empty phones (`fuzz.ratio` 100 ≥ 90) both survive
`deduplicate_businesses` — the claimed phone-similarity drop does not
happen there. -/
theorem c2_counterexample :
    c2First.phone ≠ [] ∧ c2Second.phone ≠ [] ∧
      fuzzRatio c2First.phone c2Second.phone ≥ 90 ∧
      fuzzRatio (pyStrip (pyLower c2Second.name))
        (pyStrip (pyLower c2First.name)) ≤ 85 ∧
      deduplicate_businesses [c2First, c2Second] = [c2First, c2Second] := by
  refine ⟨by decide, by decide, by decide, by decide, by decide⟩

theorem dedupeAux_map_eq (g : Business → Business)
    (hg : ∀ b, (g b).name = b.name) :
    ∀ (l : List Business) (seen : List Str),
      dedupeAux seen (l.map g) = (dedupeAux seen l).map g := by
  intro l
  induction l with
  | nil => intro seen; rfl
  | cons b rest ih =>
    intro seen
    by_cases h1 : pyStrip (pyLower b.name) ∈ seen
    · simp [dedupeAux, hg b, h1, ih seen]
    · by_cases h2 : (seen.any fun existing =>
          is_similar_text (pyStrip (pyLower b.name)) existing 85) = true
      · simp [dedupeAux, hg b, h1, h2, ih seen]
      · simp [dedupeAux, hg b, h1, h2,
          ih (pyStrip (pyLower b.name) :: seen)]

/-- C2 amended: `deduplicate_businesses` never consults phone numbers — any
transformation that preserves names commutes with it, so records with
90-percent-similar (even identical) phones but dissimilar names are all
kept.  The phone rule (`fuzz.ratio(phones) > 90` with both phones truthy)
lives in `is_duplicate_business`, used during per-listing extraction. -/
theorem c2_amended :
    (∀ g : Business → Business, (∀ b, (g b).name = b.name) →
        ∀ businesses : List Business,
          deduplicate_businesses (businesses.map g) =
            (deduplicate_businesses businesses).map g) ∧
    (∀ (b existing : Business) (rest : List Business),
        b.phone ≠ [] → existing.phone ≠ [] →
        fuzzRatio b.phone existing.phone > 90 →
        is_duplicate_business b (existing :: rest) = true) := by
  constructor
  · intro g hg businesses
    exact dedupeAux_map_eq g hg businesses []
  · intro b existing rest hb he hsim
    by_cases hn : fuzzRatio (pyLower b.name) (pyLower existing.name) > 85
    · simp [is_duplicate_business, hn]
    · have hb' : b.phone.isEmpty = false := by
        simpa [List.isEmpty_iff] using hb
      have he' : existing.phone.isEmpty = false := by
        simpa [List.isEmpty_iff] using he
      simp [is_duplicate_business, hn, hb', he', hsim]

/-- C2 witness. -/
theorem c2_amended_witness :
    deduplicate_businesses
        ([c2First, c2Second].map (fun b => { b with phone := ("9").toList })) =
      (deduplicate_businesses [c2First, c2Second]).map
        (fun b => { b with phone := ("9").toList }) ∧
    is_duplicate_business c2First [c2Second] = true :=
  ⟨c2_amended.1 (fun b => { b with phone := ("9").toList }) (fun _ => rfl)
      [c2First, c2Second],
    c2_amended.2 c2First c2Second [] (by decide) (by decide) (by decide)⟩

/-- C3 counterexample: a short URL (`http://x.com/rental`, 19 characters)
that starts with an HTTP scheme, matches no generic pattern and contains
the business indicator `rental` is nonetheless rejected — the 30-character
floor is applied before the indicator is ever consulted. -/
theorem c3_counterexample :
    ("http").toList.isPrefixOf ("http://x.com/rental").toList = true ∧
      matchesGenericPattern ("http://x.com/rental").toList = false ∧
      isSubstring ("rental").toList (pyLower ("http://x.com/rental").toList) = true ∧
      ("http://x.com/rental").toList.length < 30 ∧
      is_valid_social_url ("http://x.com/rental").toList ("facebook").toList =
        false := by
  refine ⟨by decide, by decide, by decide, by decide, by decide⟩

theorem is_valid_url_ne_nil {u : Str} (h : ("http").toList.isPrefixOf u = true) :
    u.isEmpty = false := by
  cases u with
  | nil => simp [List.isPrefixOf] at h
  | cons c cs => rfl

/-- C3 amended: URLs shorter than 30 characters are rejected by
`is_valid_social_url` regardless of business indicators; the indicator only
exempts URLs of length 30 or more (in particular the 30–39 range) from the
stricter 40-character requirement, so any http-schemed, non-generic URL of
length at least 30 containing a business indicator is accepted. -/
theorem c3_amended :
    (∀ url platform : Str, url.length < 30 →
        is_valid_social_url url platform = false) ∧
    (∀ url platform : Str,
        ("http").toList.isPrefixOf url = true →
        matchesGenericPattern url = false →
        businessIndicators.any (fun ind => isSubstring ind (pyLower url)) = true →
        30 ≤ url.length →
        is_valid_social_url url platform = true) := by
  constructor
  · intro url platform h
    unfold is_valid_social_url
    repeat' split
    all_goals rfl
  · intro url platform hpre hgen hind hlen
    have hne := is_valid_url_ne_nil hpre
    have h1 : ¬((url.isEmpty || !(("http").toList.isPrefixOf url)) = true) := by
      rw [hne, hpre]
      simp
    have h2 : ¬(matchesGenericPattern url = true) := by
      simp [hgen]
    have h3 : ¬(url.length < 30) := by
      omega
    unfold is_valid_social_url
    rw [if_neg h1, if_neg h2, if_neg h3]
    simp [hind]

/-- C3 witness. -/
theorem c3_amended_witness :
    is_valid_social_url ("x").toList ("facebook").toList = false ∧
      is_valid_social_url
        ("https://www.facebook.com/autodriverentalsofficial").toList
        ("facebook").toList = true :=
  ⟨c3_amended.1 ("x").toList ("facebook").toList (by decide),
    c3_amended.2 ("https://www.facebook.com/autodriverentalsofficial").toList
      ("facebook").toList (by decide) (by decide) (by decide) (by decide)⟩

/-- C9 counterexample: `admin1@acmerentals.org`, whose local part starts
with `admin` but is not exactly `admin`, is returned by `extract_emails` —
only the exact prefixes `admin@` and `test@` are filtered. -/
theorem c9_counterexample :
    extract_emails ("admin1@acmerentals.org").toList =
        [("admin1@acmerentals.org").toList] ∧
      ("admin").toList.isPrefixOf ("admin1@acmerentals.org").toList = true := by
  refine ⟨by decide, by decide⟩

/-- C9 amended: every email returned by `extract_emails` fails to start
(case-insensitively) with `admin@` or `test@` — i.e. candidates whose
entire local part is `admin` or `test` are excluded; longer local parts
merely beginning with those strings are not excluded on this ground. -/
theorem c9_amended (text email : Str) (h : email ∈ extract_emails text) :
    ¬(("admin@").toList.isPrefixOf (pyLower email) = true) ∧
      ¬(("test@").toList.isPrefixOf (pyLower email) = true) := by
  unfold extract_emails at h
  have hk : emailKeep email = true := (List.mem_filter.mp h).2
  simp only [emailKeep, Bool.and_eq_true, Bool.not_eq_true'] at hk
  constructor
  · rw [hk.1.1.1.2]
    decide
  · rw [hk.1.1.2]
    decide

/-- C9 witness. -/
theorem c9_amended_witness :
    ¬(("admin@").toList.isPrefixOf (pyLower ("sales@acmerentals.org").toList) = true) ∧
      ¬(("test@").toList.isPrefixOf (pyLower ("sales@acmerentals.org").toList) = true) :=
  c9_amended ("write to sales@acmerentals.org").toList
    ("sales@acmerentals.org").toList (by decide)

/-- C1 counterexample: a record with every contact field populated, whose
website fetch succeeds but yields a blank page (empty extraction result),
comes out of `extract_contact_details` with its non-empty `email` and
`facebook` fields blanked — `business.update({...})` overwrites rather than
fills gaps. -/
theorem c1_counterexample :
    c1Business.email ≠ [] ∧ c1Business.facebook ≠ [] ∧
      (extract_contact_details fetchBlankPage c1Business).email = [] ∧
      (extract_contact_details fetchBlankPage c1Business).facebook = [] := by
  refine ⟨by decide, by decide, by decide, by decide⟩

theorem is_valid_url_isEmpty_false {u : Str} (h : is_valid_url u = true) :
    u.isEmpty = false := by
  cases hu : u.isEmpty
  · rfl
  · exfalso
    unfold is_valid_url at h
    rw [hu] at h
    simp at h

/-- C1 amended: `extract_contact_details` leaves the record unchanged
exactly when the website is empty/invalid or the fetch raises; on a
successful fetch it overwrites all seven contact fields with the freshly
extracted values (blanking any field whose extraction came back empty) and
leaves the non-contact fields unchanged. -/
theorem c1_amended :
    (∀ (fetch : Str → Option Page) (b : Business),
        is_valid_url b.website = false →
        extract_contact_details fetch b = b) ∧
    (∀ (fetch : Str → Option Page) (b : Business),
        fetch b.website = none →
        extract_contact_details fetch b = b) ∧
    (∀ (fetch : Str → Option Page) (b : Business) (page : Page),
        is_valid_url b.website = true →
        fetch b.website = some page →
        extract_contact_details fetch b =
          { b with
            email := (extract_emails page.text).headD []
            facebook := (enrichedSocial fetch page b.website).facebook
            instagram := (enrichedSocial fetch page b.website).instagram
            twitter := (enrichedSocial fetch page b.website).twitter
            linkedin := (enrichedSocial fetch page b.website).linkedin
            youtube := (enrichedSocial fetch page b.website).youtube
            whatsapp := (enrichedSocial fetch page b.website).whatsapp }) := by
  refine ⟨?_, ?_, ?_⟩
  · intro fetch b h
    simp [extract_contact_details, h]
  · intro fetch b h
    by_cases hv : is_valid_url b.website = true
    · have hne := is_valid_url_isEmpty_false hv
      simp [extract_contact_details, hne, hv, h]
    · have hv' : is_valid_url b.website = false := by
        cases hx : is_valid_url b.website
        · rfl
        · exact absurd hx hv
      simp [extract_contact_details, hv']
  · intro fetch b page hv hf
    have hne := is_valid_url_isEmpty_false hv
    simp [extract_contact_details, enrichedSocial, hne, hv, hf]

/-- C1 witness. -/
theorem c1_amended_witness :
    extract_contact_details fetchBlankPage
        { c2Second with website := ("not-a-url").toList } =
      { c2Second with website := ("not-a-url").toList } ∧
    extract_contact_details (fun _ => none) c1Business = c1Business ∧
    extract_contact_details fetchBlankPage c1Business =
      { c1Business with
        email := (extract_emails (Page.mk [] []).text).headD []
        facebook := (enrichedSocial fetchBlankPage (Page.mk [] [])
          c1Business.website).facebook
        instagram := (enrichedSocial fetchBlankPage (Page.mk [] [])
          c1Business.website).instagram
        twitter := (enrichedSocial fetchBlankPage (Page.mk [] [])
          c1Business.website).twitter
        linkedin := (enrichedSocial fetchBlankPage (Page.mk [] [])
          c1Business.website).linkedin
        youtube := (enrichedSocial fetchBlankPage (Page.mk [] [])
          c1Business.website).youtube
        whatsapp := (enrichedSocial fetchBlankPage (Page.mk [] [])
          c1Business.website).whatsapp } :=
  ⟨c1_amended.1 fetchBlankPage { c2Second with website := ("not-a-url").toList }
      (by decide),
    c1_amended.2.1 (fun _ => none) c1Business rfl,
    c1_amended.2.2 fetchBlankPage c1Business (Page.mk [] []) (by decide) rfl⟩

end N8n
